import Mathlib

/-!
Verification of the recurrent-computation core of the `radiate` neuroevolution
framework: the LSTM gated recurrent cell (`src/models/neat/layers/lstm.rs`) and
the graph-node activation protocol (`src/models/neat/neuron.rs`).

The embedding is shallow: Rust structs become Lean structures, `Vec` becomes
`List`, and `&mut self` methods become functions returning a
(result, new state) pair, so that mutations performed before an early `?`
return are kept, exactly as in the Rust code.

The only operations the excerpt itself performs on scalar values are `*`, `+`
and the literal `0.0`; every other numeric step (sigmoid/tanh and their
derivatives, the `Dense` sub-layer math, the `NodeType` combination function)
is delegated to collaborators that are external to the excerpt.  Floating
point values are therefore idealized as an arbitrary scalar type `α` with
`Mul`, `Add` and `Zero`, and the external collaborators are modelled as
opaque capability records following the spec's interface contracts; every
theorem quantifies over them, and concrete witnesses instantiate `α := ℤ`.
-/

namespace Radiate

/-- Activation tags used by the cell (the numeric definitions are external to
the excerpt; only the tags `Sigmoid` and `Tahn` appear in `lstm.rs`). -/
inductive Activation where
  | Sigmoid
  | Tahn
  deriving DecidableEq, Repr

variable {α : Type} [Mul α] [Add α] [Zero α]

/-- Modelled from the spec: element-wise multiply (the `vectorops` module is
not part of the excerpt; the spec describes these helpers as element-wise
vector arithmetic).  The Rust version updates its first argument in place. -/
def element_multiply (a b : List α) : List α :=
  List.zipWith (fun x y => x * y) a b

/-- Modelled from the spec: element-wise add (missing `vectorops` module). -/
def element_add (a b : List α) : List α :=
  List.zipWith (fun x y => x + y) a b

/-- Modelled from the spec: element-wise product returning a fresh vector
(missing `vectorops` module). -/
def product (a b : List α) : List α :=
  List.zipWith (fun x y => x * y) a b

/-- Modelled from the spec: apply an activation function element-wise (missing
`vectorops` module); the numeric meaning of each activation tag is supplied by
the opaque activation capability `f`. -/
def element_activate (f : Activation → α → α) (a : List α) (act : Activation) : List α :=
  a.map (f act)

/-- Modelled from the spec: apply an activation derivative element-wise
(missing `vectorops` module); `f` is the opaque derivative capability. -/
def element_deactivate (f : Activation → α → α) (a : List α) (act : Activation) : List α :=
  a.map (f act)

/-- Modelled from the spec: the SubLayer capability each gate delegates to
(`Dense` is external to the excerpt): `forward(input) -> output | fail`,
`backward(error, rate) -> propagated_error | fail`, `reset()`, plus the
sub-layer's activation tag (`dense.activation` is read by `step_back`), and
the activation-function capability `actFun`/`deactFun` used by
`vectorops::element_activate` / `element_deactivate`.  `D` is the opaque
sub-layer state; a failing call leaves the sub-layer untouched. -/
structure DenseOps (D : Type) (α : Type) where
  forward : D → List α → Option (List α × D)
  backward : D → List α → α → Option (List α × D)
  reset : D → D
  activation : D → Activation
  actFun : Activation → α → α
  deactFun : Activation → α → α

/-- The per-timestep snapshot ledger of the cell (`LSTMState` in `lstm.rs`). -/
structure LSTMState (α : Type) where
  index : Nat
  f_gate_output : List (List α)
  i_gate_output : List (List α)
  s_gate_output : List (List α)
  o_gate_output : List (List α)
  memory_states : List (List α)
  errors : List (List α)
  d_prev_memory : List (List α)
  d_prev_hidden : List (List α)
  deriving DecidableEq, Repr

/-- `LSTMState::new`: the empty ledger. -/
def LSTMState.new (α : Type) : LSTMState α :=
  { index := 0
    f_gate_output := []
    i_gate_output := []
    s_gate_output := []
    o_gate_output := []
    memory_states := []
    errors := []
    d_prev_memory := []
    d_prev_hidden := [] }

/-- `LSTMState::update_forward`: append the gate outputs of one time step and
bump `index`. -/
def LSTMState.update_forward (s : LSTMState α) (fg ig sg og mem_state : List α) :
    LSTMState α :=
  { s with
    f_gate_output := s.f_gate_output ++ [fg]
    i_gate_output := s.i_gate_output ++ [ig]
    s_gate_output := s.s_gate_output ++ [sg]
    o_gate_output := s.o_gate_output ++ [og]
    memory_states := s.memory_states ++ [mem_state]
    index := s.index + 1 }

/-- `LSTMState::update_backward`: append one injected error vector. -/
def LSTMState.update_backward (s : LSTMState α) (errs : List α) : LSTMState α :=
  { s with errors := s.errors ++ [errs] }

/-- The LSTM cell (`LSTM` in `lstm.rs`); `D` is the opaque state of one
`Dense` sub-layer. -/
structure LSTM (D : Type) (α : Type) where
  input_size : Nat
  memory_size : Nat
  output_size : Nat
  memory : List α
  hidden : List α
  states : LSTMState α
  g_gate : D
  i_gate : D
  f_gate : D
  o_gate : D
  v_gate : D
  deriving DecidableEq, Repr

/-- `LSTM::new`: zeroed memory and hidden vectors, empty ledger.  The five
sub-layer states are passed in because `Dense::new` is external to the
excerpt (in the source they are `Dense::new` instances over the same sizes). -/
def LSTM.new {D : Type} (input_size memory_size output_size : Nat)
    (g i f o v : D) : LSTM D α :=
  { input_size := input_size
    memory_size := memory_size
    output_size := output_size
    memory := List.replicate memory_size 0
    hidden := List.replicate memory_size 0
    states := LSTMState.new α
    g_gate := g
    i_gate := i
    f_gate := f
    o_gate := o
    v_gate := v }

/-- `<LSTM as Layer>::forward` from `lstm.rs` (lines 205-234): concatenate
`hidden ++ inputs`, run the four gates, update `memory` in place
(`memory ⊙ f_output + g_output ⊙ i_output`), compute the new hidden
(`o_output ⊙ tanh(memory)`), record the step in the ledger, and project the
new hidden through `v_gate`.  A `?` failure returns `none` while keeping the
mutations made so far, as `&mut self` does in Rust. -/
def LSTM.forward {D : Type} (ops : DenseOps D α) (l : LSTM D α) (inputs : List α) :
    Option (List α) × LSTM D α :=
  let hidden_input := l.hidden ++ inputs
  match ops.forward l.f_gate hidden_input with
  | none => (none, l)
  | some (f_output, fG) =>
  match ops.forward l.i_gate hidden_input with
  | none => (none, { l with f_gate := fG })
  | some (i_output, iG) =>
  match ops.forward l.o_gate hidden_input with
  | none => (none, { l with f_gate := fG, i_gate := iG })
  | some (o_output, oG) =>
  match ops.forward l.g_gate hidden_input with
  | none => (none, { l with f_gate := fG, i_gate := iG, o_gate := oG })
  | some (g_output, gG) =>
  let current_state := element_multiply g_output i_output
  let mem2 := element_add (element_multiply l.memory f_output) current_state
  let current_output :=
    element_multiply o_output (element_activate ops.actFun mem2 Activation.Tahn)
  let st2 := l.states.update_forward f_output i_output g_output o_output mem2
  match ops.forward l.v_gate current_output with
  | none =>
      (none, { l with memory := mem2, hidden := current_output, states := st2,
                      f_gate := fG, i_gate := iG, o_gate := oG, g_gate := gG })
  | some (out, vG) =>
      (some out, { l with memory := mem2, hidden := current_output, states := st2,
                          f_gate := fG, i_gate := iG, o_gate := oG, g_gate := gG,
                          v_gate := vG })

/-- `LSTM::step_back` from `lstm.rs` (lines 125-194), mirrored read-for-read:
every `?` on a ledger `get(index)` or on a sub-layer `backward` is a separate
`match`, in source order, so early exits keep exactly the mutations made so
far. -/
def LSTM.step_back {D : Type} (ops : DenseOps D α) (l : LSTM D α)
    (errors : List α) (l_rate : α) (index : Nat) : Option (List α) × LSTM D α :=
  match l.states.d_prev_hidden.getLast? with
  | none => (none, l)
  | some dh_next =>
  match l.states.d_prev_memory.getLast? with
  | none => (none, l)
  | some dc_next =>
  match l.states.memory_states.get? index with
  | none => (none, l)
  | some c_old =>
  match ops.backward l.v_gate errors l_rate with
  | none => (none, l)
  | some (dh0, vG) =>
  let l1 := { l with v_gate := vG }
  let dh := element_multiply dh0 dh_next
  match l.states.memory_states.get? index with
  | none => (none, l1)
  | some ms139 =>
  match l.states.o_gate_output.get? index with
  | none => (none, l1)
  | some og141 =>
  let dho :=
    element_multiply
      (element_multiply (element_activate ops.actFun ms139 Activation.Tahn) dh)
      (element_deactivate ops.deactFun og141 (ops.activation l.o_gate))
  match l.states.o_gate_output.get? index with
  | none => (none, l1)
  | some og146 =>
  match l.states.memory_states.get? index with
  | none => (none, l1)
  | some ms147 =>
  let dc :=
    element_add
      (element_multiply (product og146 dh)
        (element_deactivate ops.deactFun ms147 Activation.Tahn))
      dc_next
  match l.states.f_gate_output.get? index with
  | none => (none, l1)
  | some fg154 =>
  let dhf :=
    element_multiply (product c_old dc)
      (element_deactivate ops.deactFun fg154 (ops.activation l.f_gate))
  match l.states.s_gate_output.get? index with
  | none => (none, l1)
  | some sg159 =>
  match l.states.i_gate_output.get? index with
  | none => (none, l1)
  | some ig160 =>
  let dhi :=
    element_multiply (product sg159 dc)
      (element_deactivate ops.deactFun ig160 (ops.activation l.i_gate))
  match l.states.i_gate_output.get? index with
  | none => (none, l1)
  | some ig165 =>
  match l.states.s_gate_output.get? index with
  | none => (none, l1)
  | some sg166 =>
  let dhc :=
    element_multiply (product ig165 dc)
      (element_deactivate ops.deactFun sg166 (ops.activation l.g_gate))
  match ops.backward l1.f_gate dhf l_rate with
  | none => (none, l1)
  | some (f_error, fG) =>
  let l2 := { l1 with f_gate := fG }
  match ops.backward l2.i_gate dhi l_rate with
  | none => (none, l2)
  | some (i_error, iG) =>
  let l3 := { l2 with i_gate := iG }
  match ops.backward l3.g_gate dhc l_rate with
  | none => (none, l3)
  | some (g_error, gG) =>
  let l4 := { l3 with g_gate := gG }
  match ops.backward l4.o_gate dho l_rate with
  | none => (none, l4)
  | some (o_error, oG) =>
  let l5 := { l4 with o_gate := oG }
  let dx :=
    element_add
      (element_add
        (element_add
          (element_add (List.replicate (l.input_size + l.memory_size) 0) f_error)
          i_error)
        g_error)
      o_error
  let dh_push := dx.take l.memory_size
  match l.states.f_gate_output.get? index with
  | none => (none, l5)
  | some fg185 =>
  let dc_push := product fg185 dc
  (some (dx.drop l.memory_size),
   { l5 with states :=
      { l5.states with
        d_prev_hidden := l5.states.d_prev_hidden ++ [dh_push]
        d_prev_memory := l5.states.d_prev_memory ++ [dc_push] } })

/-- `<LSTM as Layer>::backward` from `lstm.rs` (lines 240-246): push one zero
vector onto each previous-derivative sequence, then run `step_back` at the
current `states.index`. -/
def LSTM.backward {D : Type} (ops : DenseOps D α) (l : LSTM D α)
    (errors : List α) (learning_rate : α) : Option (List α) × LSTM D α :=
  let l0 :=
    { l with states :=
        { l.states with
          d_prev_memory := l.states.d_prev_memory ++ [List.replicate l.memory_size 0]
          d_prev_hidden := l.states.d_prev_hidden ++ [List.replicate l.memory_size 0] } }
  LSTM.step_back ops l0 errors learning_rate l0.states.index

/-- `<LSTM as Layer>::reset` from `lstm.rs` (lines 250-259): reset the five
sub-layers, empty the ledger, and re-zero memory and hidden. -/
def LSTM.reset {D : Type} (ops : DenseOps D α) (l : LSTM D α) : LSTM D α :=
  { l with
    g_gate := ops.reset l.g_gate
    i_gate := ops.reset l.i_gate
    f_gate := ops.reset l.f_gate
    o_gate := ops.reset l.o_gate
    v_gate := ops.reset l.v_gate
    states := LSTMState.new α
    memory := List.replicate l.memory_size 0
    hidden := List.replicate l.memory_size 0 }

/-- Modelled from the spec: the node position kinds {input, hidden, output}
(the `Layer` enum of `layer.rs` is external to the excerpt; `neuron.rs` only
stores and copies the tag). -/
inductive Layer where
  | input
  | hidden
  | output
  deriving DecidableEq, Repr

/-- Modelled from the spec: node kinds — plain versus recurrent-memory — with
the associated activation-combination behaviour dispatched externally (the
`NodeType` enum of `nodetype.rs` is external to the excerpt; `neuron.rs` only
stores the tag and calls its `activate`). -/
inductive NodeType where
  | plain
  | recurrent
  deriving DecidableEq, Repr

/-- Modelled from the spec: whether a node kind carries memory across ticks
(the recurrent-memory kind does, the plain kind does not). -/
def NodeType.carries_memory : NodeType → Bool
  | NodeType.plain => false
  | NodeType.recurrent => true

/-- Modelled from the spec: the NodeType capability
`activate(incoming_map, activation, previous_value, recurrent_state)
  -> (new_recurrent_state, new_value)` consumed by `Neuron::is_ready`
(`nodetype.rs` is external to the excerpt).  The pair order (cell state
first, current value second) matches the call site in `neuron.rs`. -/
structure NodeOps (α : Type) where
  activate : NodeType → List (Int × Option α) → Activation → Option α → Option α →
    Option α × Option α

/-- A node of the network graph (`Neuron` in `neuron.rs`).  The Rust
`HashMap<i32, Option<f64>>` for `incoming` is modelled as an association
list; the claims under study never depend on lookup order. -/
structure Neuron (α : Type) where
  innov : Int
  curr_value : Option α
  prev_value : Option α
  cell_state : Option α
  layer_type : Layer
  node_type : NodeType
  activation : Activation
  outgoing : List Int
  incoming : List (Int × Option α)
  deriving DecidableEq, Repr

/-- `Neuron::new`: a blank neuron. -/
def Neuron.new (α : Type) (innov : Int) (layer_type : Layer) (node_type : NodeType)
    (activation : Activation) : Neuron α :=
  { innov := innov
    curr_value := none
    prev_value := none
    cell_state := none
    layer_type := layer_type
    node_type := node_type
    activation := activation
    outgoing := []
    incoming := [] }

/-- `Neuron::is_ready` from `neuron.rs` (lines 69-78): if every incoming slot
is set, run the node-kind activation, store the new current value and cell
state, and return `true`; otherwise return `false` without mutating. -/
def Neuron.is_ready {α : Type} (ops : NodeOps α) (n : Neuron α) : Bool × Neuron α :=
  let can_activate := n.incoming.all (fun p => p.2.isSome)
  if can_activate then
    let r := ops.activate n.node_type n.incoming n.activation n.prev_value n.cell_state
    (true, { n with curr_value := r.2, cell_state := r.1 })
  else (false, n)

/-- `Neuron::reset_node` from `neuron.rs` (lines 84-91): roll `curr_value`
into `prev_value`, clear `curr_value` and `cell_state`, and unset every
incoming slot. -/
def Neuron.reset_node {α : Type} (n : Neuron α) : Neuron α :=
  { n with
    prev_value := n.curr_value
    curr_value := none
    cell_state := none
    incoming := n.incoming.map (fun p => (p.1, none)) }

/-! ### Concrete instances used by witnesses and counterexamples -/

/-- A concrete sub-layer capability over `ℤ` with trivial (stateless)
sub-layers: forward echoes its input, backward echoes the error twice (a
propagated error of twice the gate width), reset is the identity. -/
def ops0 : DenseOps Unit ℤ :=
  { forward := fun d v => some (v, d)
    backward := fun d e _ => some (e ++ e, d)
    reset := fun d => d
    activation := fun _ => Activation.Sigmoid
    actFun := fun _ x => x
    deactFun := fun _ _ => 1 }

/-- A freshly constructed 1-1-1 cell over the trivial sub-layers. -/
def lstm0 : LSTM Unit ℤ :=
  LSTM.new 1 1 1 () () () () ()

/-- A concrete node-kind activation capability over `ℤ`. -/
def opsN : NodeOps ℤ :=
  { activate := fun _ _ _ _ _ => (some 1, some 2) }

/-- A concrete node-kind activation capability whose produced value depends on
the recurrent cell state, so recomputation is observable. -/
def opsN2 : NodeOps ℤ :=
  { activate := fun _ _ _ _ c => (some 1, match c with | none => some 10 | some x => some (x + 100)) }

/-- An input node with an empty incoming map. -/
def nEmpty : Neuron ℤ :=
  Neuron.new ℤ 0 Layer.input NodeType.plain Activation.Sigmoid

/-- A hidden node with two incoming slots, both set. -/
def nTwo : Neuron ℤ :=
  { Neuron.new ℤ 7 Layer.hidden NodeType.plain Activation.Sigmoid with
    incoming := [(1, some 3), (2, some 4)] }

/-- A hidden node with one incoming slot, set. -/
def nOne : Neuron ℤ :=
  { Neuron.new ℤ 8 Layer.hidden NodeType.plain Activation.Sigmoid with
    incoming := [(1, some 3)] }

/-- A recurrent-memory node holding a cell state. -/
def nRec : Neuron ℤ :=
  { Neuron.new ℤ 9 Layer.hidden NodeType.recurrent Activation.Sigmoid with
    cell_state := some 5 }

/-! ### C1 — the forward step of the cell -/

/-- C1: when the four gates produce `fo`, `io`, `oo`, `go` on the combined
input `hidden ++ inputs`, one `forward` call updates the persistent memory to
`memory ⊙ fo + go ⊙ io`, sets the new hidden to `oo ⊙ tanh(updated memory)`,
appends exactly one ledger entry holding the four gate outputs and the
updated memory while incrementing `index` by one, and returns the projection
(`v_gate`) of the new hidden. -/
theorem C1_forward_update {D α : Type} [Mul α] [Add α] [Zero α]
    (ops : DenseOps D α) (l : LSTM D α) (inputs fo io oo go : List α)
    (fG iG oG gG : D)
    (hf : ops.forward l.f_gate (l.hidden ++ inputs) = some (fo, fG))
    (hi : ops.forward l.i_gate (l.hidden ++ inputs) = some (io, iG))
    (ho : ops.forward l.o_gate (l.hidden ++ inputs) = some (oo, oG))
    (hg : ops.forward l.g_gate (l.hidden ++ inputs) = some (go, gG)) :
    (LSTM.forward ops l inputs).2.memory
      = element_add (element_multiply l.memory fo) (element_multiply go io)
    ∧ (LSTM.forward ops l inputs).2.hidden
      = element_multiply oo (element_activate ops.actFun
          (element_add (element_multiply l.memory fo) (element_multiply go io))
          Activation.Tahn)
    ∧ (LSTM.forward ops l inputs).2.states.f_gate_output
      = l.states.f_gate_output ++ [fo]
    ∧ (LSTM.forward ops l inputs).2.states.i_gate_output
      = l.states.i_gate_output ++ [io]
    ∧ (LSTM.forward ops l inputs).2.states.s_gate_output
      = l.states.s_gate_output ++ [go]
    ∧ (LSTM.forward ops l inputs).2.states.o_gate_output
      = l.states.o_gate_output ++ [oo]
    ∧ (LSTM.forward ops l inputs).2.states.memory_states
      = l.states.memory_states ++ [(LSTM.forward ops l inputs).2.memory]
    ∧ (LSTM.forward ops l inputs).2.states.index = l.states.index + 1
    ∧ (LSTM.forward ops l inputs).1
      = Option.map Prod.fst (ops.forward l.v_gate (LSTM.forward ops l inputs).2.hidden) := by
  cases hv : ops.forward l.v_gate
      (element_multiply oo (element_activate ops.actFun
        (element_add (element_multiply l.memory fo) (element_multiply go io))
        Activation.Tahn)) with
  | none =>
    simp [LSTM.forward, hf, hi, ho, hg, hv, LSTMState.update_forward]
  | some p =>
    simp [LSTM.forward, hf, hi, ho, hg, hv, LSTMState.update_forward]

/-- C1 witness: the theorem applied to a concrete freshly constructed 1-1-1
cell with the trivial sub-layers. -/
theorem C1_forward_update_witness :
    (ops0.forward lstm0.f_gate (lstm0.hidden ++ [5]) = some ([0, 5], ()))
    ∧ ((LSTM.forward ops0 lstm0 [5]).2.memory
        = element_add (element_multiply lstm0.memory [0, 5])
            (element_multiply [0, 5] [0, 5])
      ∧ (LSTM.forward ops0 lstm0 [5]).2.hidden
        = element_multiply [0, 5] (element_activate ops0.actFun
            (element_add (element_multiply lstm0.memory [0, 5])
              (element_multiply [0, 5] [0, 5]))
            Activation.Tahn)
      ∧ (LSTM.forward ops0 lstm0 [5]).2.states.f_gate_output
        = lstm0.states.f_gate_output ++ [[0, 5]]
      ∧ (LSTM.forward ops0 lstm0 [5]).2.states.i_gate_output
        = lstm0.states.i_gate_output ++ [[0, 5]]
      ∧ (LSTM.forward ops0 lstm0 [5]).2.states.s_gate_output
        = lstm0.states.s_gate_output ++ [[0, 5]]
      ∧ (LSTM.forward ops0 lstm0 [5]).2.states.o_gate_output
        = lstm0.states.o_gate_output ++ [[0, 5]]
      ∧ (LSTM.forward ops0 lstm0 [5]).2.states.memory_states
        = lstm0.states.memory_states ++ [(LSTM.forward ops0 lstm0 [5]).2.memory]
      ∧ (LSTM.forward ops0 lstm0 [5]).2.states.index = lstm0.states.index + 1
      ∧ (LSTM.forward ops0 lstm0 [5]).1
        = Option.map Prod.fst (ops0.forward lstm0.v_gate
            (LSTM.forward ops0 lstm0 [5]).2.hidden)) :=
  ⟨rfl, C1_forward_update ops0 lstm0 [5] [0, 5] [0, 5] [0, 5] [0, 5] () () () ()
    rfl rfl rfl rfl⟩

/-! ### C7 — backward index bound -/

/-- Helper: `step_back` at an index with no ledger entry reports no data (the
`get(index)?` on the recorded memory states fails before any gate math). -/
theorem step_back_fst_none_of_oob {D α : Type} [Mul α] [Add α] [Zero α]
    (ops : DenseOps D α) (l : LSTM D α) (e : List α) (r : α) (t : Nat)
    (h : l.states.memory_states.length ≤ t) :
    (LSTM.step_back ops l e r t).1 = none := by
  have hg : l.states.memory_states[t]? = none := List.getElem?_eq_none h
  cases h1 : l.states.d_prev_hidden.getLast? with
  | none => simp [LSTM.step_back, h1]
  | some dh =>
    cases h2 : l.states.d_prev_memory.getLast? with
    | none => simp [LSTM.step_back, h1, h2]
    | some dc => simp [LSTM.step_back, h1, h2, hg]

/-- C7: unwinding a time index with no recorded forward step reports no data
(`None`), both for `step_back` at any out-of-range index and for the
top-level `backward` (whose index is `states.index`, including the `index == 0`
case on a cell with an empty ledger); totality of the embedding rules out
out-of-bounds reads and panics. -/
theorem C7_backward_index_bound {D α : Type} [Mul α] [Add α] [Zero α]
    (ops : DenseOps D α) (l : LSTM D α) (e : List α) (r : α) (t : Nat) :
    (l.states.memory_states.length ≤ t → (LSTM.step_back ops l e r t).1 = none)
    ∧ (l.states.memory_states.length ≤ l.states.index →
        (LSTM.backward ops l e r).1 = none) := by
  constructor
  · intro h
    exact step_back_fst_none_of_oob ops l e r t h
  · intro h
    exact step_back_fst_none_of_oob ops _ e r _ h

/-- C7 witness: a fresh cell has an empty ledger and `index == 0`, and both
unwind entry points report no data on it. -/
theorem C7_backward_index_bound_witness :
    (lstm0.states.memory_states.length ≤ 0)
    ∧ (lstm0.states.memory_states.length ≤ lstm0.states.index)
    ∧ (LSTM.step_back ops0 lstm0 [1] 0 0).1 = none
    ∧ (LSTM.backward ops0 lstm0 [1] 0).1 = none :=
  ⟨by decide, by decide,
   (C7_backward_index_bound ops0 lstm0 [1] 0 0).1 (by decide),
   (C7_backward_index_bound ops0 lstm0 [1] 0 0).2 (by decide)⟩

/-! ### C10 — backward mutates even when it reports no data -/

/-- Helper: when `step_back` reports no data, it has not pushed anything onto
the previous-derivative sequences (the pushes are the last thing it does). -/
theorem step_back_none_preserves_dprev {D α : Type} [Mul α] [Add α] [Zero α]
    (ops : DenseOps D α) (l : LSTM D α) (e : List α) (r : α) (t : Nat)
    (h : (LSTM.step_back ops l e r t).1 = none) :
    (LSTM.step_back ops l e r t).2.states.d_prev_memory = l.states.d_prev_memory
    ∧ (LSTM.step_back ops l e r t).2.states.d_prev_hidden = l.states.d_prev_hidden := by
  unfold LSTM.step_back at h
  repeat' split at h
  all_goals simp_all [LSTM.step_back, List.getElem?_eq_none]
  all_goals repeat' split at h
  all_goals simp_all [List.getElem?_eq_none]

/-- C10: the top-level `backward` pushes one zero-initialized entry onto each
of `d_prev_memory` and `d_prev_hidden` before any validation, so even when it
returns no result both sequences have grown by exactly that one zero entry:
`backward` is not atomic on error. -/
theorem C10_backward_not_atomic {D α : Type} [Mul α] [Add α] [Zero α]
    (ops : DenseOps D α) (l : LSTM D α) (e : List α) (r : α)
    (h : (LSTM.backward ops l e r).1 = none) :
    (LSTM.backward ops l e r).2.states.d_prev_memory
      = l.states.d_prev_memory ++ [List.replicate l.memory_size 0]
    ∧ (LSTM.backward ops l e r).2.states.d_prev_hidden
      = l.states.d_prev_hidden ++ [List.replicate l.memory_size 0] := by
  unfold LSTM.backward at h ⊢
  obtain ⟨h1, h2⟩ := step_back_none_preserves_dprev _ _ _ _ _ h
  exact ⟨h1, h2⟩

/-- C10 witness: on a fresh cell `backward` reports no data (empty ledger),
yet both derivative sequences have grown by one zero entry. -/
theorem C10_backward_not_atomic_witness :
    ((LSTM.backward ops0 lstm0 [1] 0).1 = none)
    ∧ (LSTM.backward ops0 lstm0 [1] 0).2.states.d_prev_memory
        = lstm0.states.d_prev_memory ++ [List.replicate lstm0.memory_size 0]
    ∧ (LSTM.backward ops0 lstm0 [1] 0).2.states.d_prev_hidden
        = lstm0.states.d_prev_hidden ++ [List.replicate lstm0.memory_size 0] :=
  ⟨by decide,
   (C10_backward_not_atomic ops0 lstm0 [1] 0 (by decide)).1,
   (C10_backward_not_atomic ops0 lstm0 [1] 0 (by decide)).2⟩

/-! ### C8 — ledger monotonicity -/

/-- Driver harness for the claim "after `n` forward calls": fold `forward`
over a list of inputs, stopping (as the network driver would) if any call
fails. -/
def forwardRun {D α : Type} [Mul α] [Add α] [Zero α] (ops : DenseOps D α) :
    LSTM D α → List (List α) → Option (LSTM D α)
  | l, [] => some l
  | l, x :: xs =>
    match LSTM.forward ops l x with
    | (some _, l2) => forwardRun ops l2 xs
    | (none, _) => none

/-- Helper: one successful forward call grows each of the five per-step
ledger sequences by exactly one entry and bumps `index` by one. -/
theorem forward_some_ledger {D α : Type} [Mul α] [Add α] [Zero α]
    (ops : DenseOps D α) (l : LSTM D α) (x y : List α)
    (h : (LSTM.forward ops l x).1 = some y) :
    (LSTM.forward ops l x).2.states.f_gate_output.length
      = l.states.f_gate_output.length + 1
    ∧ (LSTM.forward ops l x).2.states.i_gate_output.length
      = l.states.i_gate_output.length + 1
    ∧ (LSTM.forward ops l x).2.states.s_gate_output.length
      = l.states.s_gate_output.length + 1
    ∧ (LSTM.forward ops l x).2.states.o_gate_output.length
      = l.states.o_gate_output.length + 1
    ∧ (LSTM.forward ops l x).2.states.memory_states.length
      = l.states.memory_states.length + 1
    ∧ (LSTM.forward ops l x).2.states.index = l.states.index + 1 := by
  simp only [LSTM.forward] at h
  repeat' split at h
  all_goals simp_all [LSTM.forward, LSTMState.update_forward]

/-- Helper: a successful `forwardRun` over `xs` grows each ledger sequence
and `index` by `xs.length`. -/
theorem forwardRun_ledger {D α : Type} [Mul α] [Add α] [Zero α]
    (ops : DenseOps D α) (xs : List (List α)) :
    ∀ l l' : LSTM D α, forwardRun ops l xs = some l' →
      l'.states.f_gate_output.length = l.states.f_gate_output.length + xs.length
      ∧ l'.states.i_gate_output.length = l.states.i_gate_output.length + xs.length
      ∧ l'.states.s_gate_output.length = l.states.s_gate_output.length + xs.length
      ∧ l'.states.o_gate_output.length = l.states.o_gate_output.length + xs.length
      ∧ l'.states.memory_states.length = l.states.memory_states.length + xs.length
      ∧ l'.states.index = l.states.index + xs.length := by
  induction xs with
  | nil =>
    intro l l' h
    simp [forwardRun] at h
    subst h
    simp
  | cons x xs ih =>
    intro l l' h
    unfold forwardRun at h
    split at h
    case h_1 y l2 heq =>
      obtain ⟨s1, s2, s3, s4, s5, s6⟩ := ih l2 l' h
      have hsome : (LSTM.forward ops l x).1 = some y := by rw [heq]
      obtain ⟨t1, t2, t3, t4, t5, t6⟩ := forward_some_ledger ops l x y hsome
      rw [heq] at t1 t2 t3 t4 t5 t6
      dsimp only at t1 t2 t3 t4 t5 t6
      refine ⟨?_, ?_, ?_, ?_, ?_, ?_⟩ <;> simp only [List.length_cons] <;> omega
    case h_2 heq =>
      exact absurd h (by simp)

/-- C8: after `n` successful forward calls on a freshly constructed cell,
each of the five per-step ledger sequences has exactly `n` entries and the
ledger's `index` equals `n`. -/
theorem C8_ledger_monotonic {D α : Type} [Mul α] [Add α] [Zero α]
    (ops : DenseOps D α) (l0 : LSTM D α) (xs : List (List α)) (l' : LSTM D α)
    (hbase : l0.states = LSTMState.new α)
    (h : forwardRun ops l0 xs = some l') :
    l'.states.f_gate_output.length = xs.length
    ∧ l'.states.i_gate_output.length = xs.length
    ∧ l'.states.s_gate_output.length = xs.length
    ∧ l'.states.o_gate_output.length = xs.length
    ∧ l'.states.memory_states.length = xs.length
    ∧ l'.states.index = xs.length := by
  have := forwardRun_ledger ops xs l0 l' h
  rw [hbase] at this
  simpa [LSTMState.new] using this

/-- C8 witness: two successful forward calls on the concrete fresh 1-1-1
cell leave five ledger sequences of length 2 and `index == 2`. -/
theorem C8_ledger_monotonic_witness :
    (lstm0.states = LSTMState.new ℤ)
    ∧ (forwardRun ops0 lstm0 [[1], [2]]
      = some ((forwardRun ops0 lstm0 [[1], [2]]).getD lstm0))
    ∧ (((forwardRun ops0 lstm0 [[1], [2]]).getD lstm0).states.f_gate_output.length = 2
      ∧ ((forwardRun ops0 lstm0 [[1], [2]]).getD lstm0).states.i_gate_output.length = 2
      ∧ ((forwardRun ops0 lstm0 [[1], [2]]).getD lstm0).states.s_gate_output.length = 2
      ∧ ((forwardRun ops0 lstm0 [[1], [2]]).getD lstm0).states.o_gate_output.length = 2
      ∧ ((forwardRun ops0 lstm0 [[1], [2]]).getD lstm0).states.memory_states.length = 2
      ∧ ((forwardRun ops0 lstm0 [[1], [2]]).getD lstm0).states.index = 2) :=
  ⟨rfl, by decide,
   C8_ledger_monotonic ops0 lstm0 [[1], [2]]
     ((forwardRun ops0 lstm0 [[1], [2]]).getD lstm0) rfl (by decide)⟩

/-! ### C9 — reset idempotence -/

/-- C9: under the sub-layer contract that resetting an already-reset
sub-layer changes nothing, the cell's `reset` is idempotent; after any reset
the memory and hidden vectors are the construction-time zero vectors of
length `memory_size`, the ledger is the empty one with `index == 0`, the
three size fields are untouched, and each sub-layer is exactly the original
sub-layer passed through its own reset (the cell touches no weights
itself). -/
theorem C9_reset_idempotent {D α : Type} [Mul α] [Add α] [Zero α]
    (ops : DenseOps D α) (l : LSTM D α)
    (h : ∀ d, ops.reset (ops.reset d) = ops.reset d) :
    LSTM.reset ops (LSTM.reset ops l) = LSTM.reset ops l
    ∧ (LSTM.reset ops l).memory = List.replicate l.memory_size 0
    ∧ (LSTM.reset ops l).hidden = List.replicate l.memory_size 0
    ∧ (LSTM.reset ops l).states = LSTMState.new α
    ∧ (LSTM.reset ops l).states.index = 0
    ∧ (LSTM.reset ops l).g_gate = ops.reset l.g_gate
    ∧ (LSTM.reset ops l).i_gate = ops.reset l.i_gate
    ∧ (LSTM.reset ops l).f_gate = ops.reset l.f_gate
    ∧ (LSTM.reset ops l).o_gate = ops.reset l.o_gate
    ∧ (LSTM.reset ops l).v_gate = ops.reset l.v_gate
    ∧ (LSTM.reset ops l).input_size = l.input_size
    ∧ (LSTM.reset ops l).memory_size = l.memory_size
    ∧ (LSTM.reset ops l).output_size = l.output_size := by
  refine ⟨?_, rfl, rfl, rfl, rfl, rfl, rfl, rfl, rfl, rfl, rfl, rfl, rfl⟩
  simp [LSTM.reset, h]

/-- C9 witness: the theorem applied to the concrete cell with the trivial
(identity-reset) sub-layers. -/
theorem C9_reset_idempotent_witness :
    (ops0.reset (ops0.reset ()) = ops0.reset ())
    ∧ (LSTM.reset ops0 (LSTM.reset ops0 lstm0) = LSTM.reset ops0 lstm0
      ∧ (LSTM.reset ops0 lstm0).memory = List.replicate lstm0.memory_size 0
      ∧ (LSTM.reset ops0 lstm0).hidden = List.replicate lstm0.memory_size 0
      ∧ (LSTM.reset ops0 lstm0).states = LSTMState.new ℤ
      ∧ (LSTM.reset ops0 lstm0).states.index = 0
      ∧ (LSTM.reset ops0 lstm0).g_gate = ops0.reset lstm0.g_gate
      ∧ (LSTM.reset ops0 lstm0).i_gate = ops0.reset lstm0.i_gate
      ∧ (LSTM.reset ops0 lstm0).f_gate = ops0.reset lstm0.f_gate
      ∧ (LSTM.reset ops0 lstm0).o_gate = ops0.reset lstm0.o_gate
      ∧ (LSTM.reset ops0 lstm0).v_gate = ops0.reset lstm0.v_gate
      ∧ (LSTM.reset ops0 lstm0).input_size = lstm0.input_size
      ∧ (LSTM.reset ops0 lstm0).memory_size = lstm0.memory_size
      ∧ (LSTM.reset ops0 lstm0).output_size = lstm0.output_size) :=
  ⟨rfl, C9_reset_idempotent ops0 lstm0 (fun _ => rfl)⟩

/-! ### C3 — every backward call seeds fresh zeros -/

/-- Replace only the previous-derivative ledger sequences of a cell. -/
def setDPrev {D α : Type} (l : LSTM D α) (dh dm : List (List α)) : LSTM D α :=
  { l with states := { l.states with d_prev_hidden := dh, d_prev_memory := dm } }

/-- A cell with one recorded forward step whose previous-derivative
sequences end in NONZERO entries, as they would after an earlier backward
call pushed its results. -/
def lstmNZ : LSTM Unit ℤ :=
  { input_size := 1
    memory_size := 1
    output_size := 1
    memory := [0]
    hidden := [0]
    states :=
      { index := 0
        f_gate_output := [[1]]
        i_gate_output := [[1]]
        s_gate_output := [[1]]
        o_gate_output := [[1]]
        memory_states := [[2]]
        errors := []
        d_prev_memory := [[1]]
        d_prev_hidden := [[1]] }
    g_gate := ()
    i_gate := ()
    f_gate := ()
    o_gate := ()
    v_gate := () }

/-- C3 counterexample: on a cell whose derivative sequences end in the
nonzero values a previous backward call would have produced, the top-level
`backward` does NOT chain off them: it returns the value computed from
freshly pushed zero seeds (`some [0]`), while chaining off the stored values
(running `step_back` directly, which reads the existing last entries) yields
`some [10]`. -/
theorem C3_counterexample :
    (LSTM.backward ops0 lstmNZ [1] 0).1 = some [0]
    ∧ (LSTM.step_back ops0 lstmNZ [1] 0 0).1 = some [10]
    ∧ (LSTM.backward ops0 lstmNZ [1] 0).1 ≠ (LSTM.step_back ops0 lstmNZ [1] 0 0).1 :=
  ⟨by decide, by decide, by decide⟩

/-- C3 amended: the top-level `backward` pushes zero-initialized
previous-derivative entries on EVERY call, not only the first of a sequence,
and `step_back` reads the just-pushed zeros; consequently the error vector
returned by `backward` never depends on the previous-derivative entries
already in the ledger — it never chains off the values produced by the
preceding backward call. -/
theorem C3_backward_ignores_previous_derivatives {D α : Type} [Mul α] [Add α] [Zero α]
    (ops : DenseOps D α) (l : LSTM D α) (e : List α) (r : α)
    (dh1 dm1 dh2 dm2 : List (List α)) :
    (LSTM.backward ops (setDPrev l dh1 dm1) e r).1
      = (LSTM.backward ops (setDPrev l dh2 dm2) e r).1 := by
  simp only [LSTM.backward, setDPrev, LSTM.step_back, List.getLast?_concat]
  repeat' split
  all_goals rfl

/-! ### C2 — which memory value feeds the forget-gate gradient -/

/-- Sub-layer capability over `ℤ` with per-gate tags (`D := Nat`), chosen so
that on the C2 failing input only the forget-gate gradient reaches the
returned error: the forget gate (tag 0) has activation `Sigmoid` with
derivative constantly 1, every other gate has `Tahn` with derivative
constantly 0; `backward` echoes the incoming gradient twice. -/
def ops2 : DenseOps Nat ℤ :=
  { forward := fun d v => some (v, d)
    backward := fun d e _ => some (e ++ e, d)
    reset := fun d => d
    activation := fun d => if d = 0 then Activation.Sigmoid else Activation.Tahn
    actFun := fun _ x => x
    deactFun := fun a _ =>
      match a with
      | Activation.Sigmoid => 1
      | Activation.Tahn => 0 }

/-- The C2 failing input: a 1-1-1 cell after two recorded forward steps with
recorded memory contents `[2]` (after step 0) and `[3]` (after step 1), a
unit memory-gradient seed and a zero hidden-gradient seed. -/
def lstm2 : LSTM Nat ℤ :=
  { input_size := 1
    memory_size := 1
    output_size := 1
    memory := [3]
    hidden := [0]
    states :=
      { index := 2
        f_gate_output := [[9], [9]]
        i_gate_output := [[9], [9]]
        s_gate_output := [[9], [9]]
        o_gate_output := [[9], [9]]
        memory_states := [[2], [3]]
        errors := []
        d_prev_memory := [[1]]
        d_prev_hidden := [[0]] }
    g_gate := 1
    i_gate := 1
    f_gate := 0
    o_gate := 1
    v_gate := 1 }

/-- C2: evaluating `step_back` at forward-step index 1 on the failing input.
With the memory gradient `dc = [1]` and the forget-gate derivative constantly
1, the returned input-error equals exactly the memory vector the code fed
into the forget-gate gradient.  The code returns `some [3]` — the ledger's
memory recorded AT step 1, i.e. the post-update memory — whereas the claimed
gradient `(previous memory ⊙ dc) ⊙ d[act](f-out)` uses the memory from
before step 1 (`memory_states[0] = [2]`) and would yield `some [2]`. -/
theorem C2_step_back_uses_current_memory :
    (LSTM.step_back ops2 lstm2 [1] 0 1).1 = some [3]
    ∧ lstm2.states.memory_states.get? 1 = some [3]
    ∧ lstm2.states.memory_states.get? 0 = some [2]
    ∧ (LSTM.step_back ops2 lstm2 [1] 0 1).1 ≠ some [2] :=
  ⟨by decide, by decide, by decide, by decide⟩

/-! ### C4 — probing an already-fired node -/

/-- C4 counterexample: for a node whose incoming slots are all set within one
tick, a second `is_ready` call in the same tick (no `reset_node` in between)
returns `true` again — the claim says it returns `false` — and it recomputes
`curr_value` (here visibly, since the activation depends on the cell state the
first call stored). -/
theorem C4_counterexample :
    (Neuron.is_ready opsN2 nTwo).1 = true
    ∧ (Neuron.is_ready opsN2 (Neuron.is_ready opsN2 nTwo).2).1 = true
    ∧ (Neuron.is_ready opsN2 nTwo).2.curr_value = some 10
    ∧ (Neuron.is_ready opsN2 (Neuron.is_ready opsN2 nTwo).2).2.curr_value = some 101 :=
  ⟨rfl, rfl, rfl, rfl⟩

/-- C4 amended: `is_ready` does not track per-tick firing.  If every incoming
slot is set, it fires; calling it again in the same tick, without
`reset_node`, fires again — it returns `true` again and recomputes
`curr_value` and `cell_state` by re-running the node-kind activation, this
time fed the cell state produced by the first call. -/
theorem C4_is_ready_refires {α : Type} (ops : NodeOps α) (n : Neuron α)
    (h : n.incoming.all (fun p => p.2.isSome) = true) :
    (Neuron.is_ready ops n).1 = true
    ∧ (Neuron.is_ready ops (Neuron.is_ready ops n).2).1 = true
    ∧ (Neuron.is_ready ops (Neuron.is_ready ops n).2).2.curr_value
        = (ops.activate n.node_type n.incoming n.activation n.prev_value
            (ops.activate n.node_type n.incoming n.activation n.prev_value n.cell_state).1).2 := by
  simp [Neuron.is_ready, h]

/-- C4 witness: the amended theorem applied to a concrete ready node. -/
theorem C4_is_ready_refires_witness :
    (nOne.incoming.all (fun p => p.2.isSome) = true)
    ∧ ((Neuron.is_ready opsN nOne).1 = true
       ∧ (Neuron.is_ready opsN (Neuron.is_ready opsN nOne).2).1 = true
       ∧ (Neuron.is_ready opsN (Neuron.is_ready opsN nOne).2).2.curr_value
           = (opsN.activate nOne.node_type nOne.incoming nOne.activation nOne.prev_value
               (opsN.activate nOne.node_type nOne.incoming nOne.activation nOne.prev_value
                 nOne.cell_state).1).2) :=
  ⟨rfl, C4_is_ready_refires opsN nOne rfl⟩

/-! ### C5 — readiness of a node with an empty incoming map -/

/-- C5 counterexample: a node with an empty incoming map (an input node with
no incoming edges) IS auto-activated by `is_ready`: the all-slots-set test is
vacuously true, so the call returns `true` — the claim says `false` — and it
produces a `curr_value`. -/
theorem C5_counterexample :
    (Neuron.is_ready opsN nEmpty).1 = true
    ∧ (Neuron.is_ready opsN nEmpty).2.curr_value = some 2 :=
  ⟨rfl, rfl⟩

/-- C5 amended: a node is ready exactly when every entry of `incoming` is set,
with the empty map counting vacuously as ready — there is no non-emptiness
requirement, so a node with no incoming edges auto-activates. -/
theorem C5_is_ready_iff {α : Type} (ops : NodeOps α) (n : Neuron α) :
    (Neuron.is_ready ops n).1 = n.incoming.all (fun p => p.2.isSome) := by
  by_cases h : n.incoming.all (fun p => p.2.isSome) = true
  · simp [Neuron.is_ready, h]
  · simp only [Bool.not_eq_true] at h
    simp [Neuron.is_ready, h]

/-! ### C6 — what reset_node clears -/

/-- C6 counterexample: `reset_node` clears `cell_state` even on a node whose
kind carries memory — the claim says the recurrent state is left unchanged
across the tick boundary for such nodes. -/
theorem C6_counterexample :
    nRec.node_type.carries_memory = true
    ∧ nRec.cell_state = some 5
    ∧ (Neuron.reset_node nRec).cell_state = none :=
  ⟨rfl, rfl, rfl⟩

/-- C6 amended: `reset_node` rolls `curr_value` into `prev_value`, clears
`curr_value`, unsets every incoming slot, and clears `cell_state`
unconditionally — regardless of the node kind — while leaving the identity,
kind, activation and outgoing edges untouched. -/
theorem C6_reset_node_spec {α : Type} (n : Neuron α) :
    (Neuron.reset_node n).prev_value = n.curr_value
    ∧ (Neuron.reset_node n).curr_value = none
    ∧ (Neuron.reset_node n).cell_state = none
    ∧ (Neuron.reset_node n).incoming = n.incoming.map (fun p => (p.1, none))
    ∧ (Neuron.reset_node n).innov = n.innov
    ∧ (Neuron.reset_node n).layer_type = n.layer_type
    ∧ (Neuron.reset_node n).node_type = n.node_type
    ∧ (Neuron.reset_node n).activation = n.activation
    ∧ (Neuron.reset_node n).outgoing = n.outgoing := by
  simp [Neuron.reset_node]

end Radiate
